import Mathlib

/-!
Verification of the AI Research Assistant backend (Flask + LangChain RAG glue).

The development shallowly embeds the three source files:
  models.py            (the `Document` and `Conversation` ORM rows)
  langchain_service.py (the `LangChainService` RAG orchestration)
  routes.py            (the HTTP route handlers)

External collaborators (the FAISS vector store, the OpenAI LLM, the
werkzeug `secure_filename` helper, the SQL engine) are not part of the
repository; their outputs appear as explicit parameters of the embedded
functions, and the SQL `ORDER BY` clause is modelled by the stable
`List.insertionSort`.  Machine ids are modelled as `Int` (Python ints),
timestamps as `Nat`, similarity scores as `Rat`, and Python `None` as
`Option`.
-/

namespace RA

/-! Data model, from models.py. -/

/-- Model of the `Document` ORM row of models.py. -/
structure Document where
  id : Int
  filename : String
  original_filename : String
  file_path : String
  file_type : String
  upload_time : Nat
  processed : Bool
  summary : Option String
deriving DecidableEq, Repr

/-- Model of the `Conversation` ORM row of models.py. -/
structure Conversation where
  id : Int
  session_id : String
  document_id : Option Int
  question : String
  answer : String
  timestamp : Nat
  context_used : String
deriving DecidableEq, Repr

/-- Model of one FAISS vector store of langchain_service.py: the chunks the
index was built from (`FAISS.from_documents(texts, embeddings)`). -/
structure VectorStore where
  chunks : List String
deriving DecidableEq, Repr

/-- Model of the mutable maps of `LangChainService.__init__`:
`self.vector_stores` and `self.document_texts`, both keyed by document id.
Python dicts are modelled as association lists in insertion order. -/
structure ServiceState where
  vector_stores : List (Int × VectorStore)
  document_texts : List (Int × String)
deriving DecidableEq, Repr

/-- Model of the database plus the route-level view of it: the `Document`
table and the `Conversation` table. -/
structure AppState where
  documents : List Document
  conversations : List Conversation
deriving DecidableEq, Repr

/-- Truthiness of a Python optional int (`if document_id`): `None` and `0`
are falsy. -/
def pyTruthyInt : Option Int → Bool
  | none => false
  | some n => !(n == 0)

/-- Truthiness of a Python optional string (`if session_id`): `None` and the
empty string are falsy. -/
def pyTruthyStr : Option String → Bool
  | none => false
  | some s => !(s == "")

/-- Python dict assignment `m[k] = v`: replace in place when the key exists,
append otherwise. -/
def dictInsert (m : List (Int × α)) (k : Int) (v : α) : List (Int × α) :=
  if m.any (fun p => p.1 == k) then
    m.map (fun p => if p.1 == k then (k, v) else p)
  else
    m ++ [(k, v)]

/-- Python dict membership `document_id in self.vector_stores` for an
optional key (an int key is present iff some entry carries it; `None` is
never a key). -/
def dictContains (m : List (Int × VectorStore)) (k : Option Int) : Bool :=
  match k with
  | none => false
  | some i => m.any (fun p => p.1 == i)

/-- Suffix test on strings (`file_path.endswith(...)` of Python), computed
on the character sequences. -/
def strEndsWith (s pat : String) : Bool :=
  List.isSuffixOf pat.toList s.toList

/-! Ingestion pipeline, from langchain_service.py. -/

/-- Model of `LangChainService.process_document`.  The loader output
(`loadedPages`, one string per loaded page), the splitter output
(`splitChunks`) and the LLM summary (`llmSummary`) are outputs of external
libraries and appear as parameters.  Returns the `(success, message)` pair
together with the updated service state. -/
def process_document (file_path : String) (document_id : Int)
    (loadedPages : List String) (splitChunks : List String)
    (llmSummary : String) (svc : ServiceState) :
    (Bool × String) × ServiceState :=
  if strEndsWith file_path ".pdf" || strEndsWith file_path ".txt" then
    if splitChunks.isEmpty then
      ((false, "No text content found in document"), svc)
    else
      let full_text := String.intercalate "\n" loadedPages
      let svc1 : ServiceState :=
        { svc with document_texts := dictInsert svc.document_texts document_id full_text }
      let svc2 : ServiceState :=
        { svc1 with vector_stores := dictInsert svc1.vector_stores document_id ⟨splitChunks⟩ }
      ((true, llmSummary), svc2)
  else
    ((false, "Unsupported file type"), svc)

/-- Model of the document-text portion of the prompt built by
`LangChainService._generate_summary`: `if len(text) > 3000: text =
text[:3000] + "..."`.  Text is a sequence of characters. -/
def summaryText (text : List Char) : List Char :=
  if 3000 < text.length then text.take 3000 ++ ['.', '.', '.'] else text

/-- The `max_tokens` completion cap passed by `_generate_summary` to the
chat-completion call. -/
def summaryMaxTokens : Nat := 150

/-! Query orchestrator, from langchain_service.py. -/

/-- Which internal handler of `LangChainService.ask_question` produced the
answer. -/
inductive QAMode
  | docScoped
  | crossDoc
  | fallback
deriving DecidableEq, Repr

/-- Model of `LangChainService._ask_document_question`: the retrieval chain
hits (`source_documents`, retrieved with k = 3) are the `docHits`
parameter; the handler returns the mode tag and the `context_used`
string. -/
def ask_document_question (docHits : List String) : QAMode × String :=
  let context_used :=
    if docHits.isEmpty then ""
    else String.intercalate "\n" (docHits.map (fun d => d.take 200 ++ "..."))
  (QAMode.docScoped, context_used)

/-- The list `all_docs` built by `_ask_general_question`: the k = 2
similarity hits of every vector store, concatenated in dict order. -/
def crossAllDocs (vector_stores : List (Int × VectorStore))
    (crossHits : Int → List String) : List String :=
  (vector_stores.map (fun p => crossHits p.1)).flatten

/-- Model of `LangChainService._ask_general_question`: per-store similarity
hits are the `crossHits` parameter; returns the mode tag and the context
string returned to the caller (`context[:500]`, or `""` on the fallback
paths). -/
def ask_general_question (vector_stores : List (Int × VectorStore))
    (crossHits : Int → List String) : QAMode × String :=
  if vector_stores.isEmpty then (QAMode.fallback, "")
  else
    let all_docs := crossAllDocs vector_stores crossHits
    if all_docs.isEmpty then (QAMode.fallback, "")
    else
      let context := String.intercalate "\n" (all_docs.take 5)
      (QAMode.crossDoc, context.take 500)

/-- Model of `LangChainService._ask_general_conversation`: answers from the
persona prompt alone and returns an empty context string. -/
def ask_general_conversation : QAMode × String :=
  (QAMode.fallback, "")

/-- Model of `LangChainService.ask_question`: dispatch on
`if document_id and document_id in self.vector_stores` (Python truthiness),
then `elif self.vector_stores`, else general conversation. -/
def ask_question (document_id : Option Int)
    (vector_stores : List (Int × VectorStore))
    (docHits : List String) (crossHits : Int → List String) :
    QAMode × String :=
  if pyTruthyInt document_id && dictContains vector_stores document_id then
    ask_document_question docHits
  else if !vector_stores.isEmpty then
    ask_general_question vector_stores crossHits
  else
    ask_general_conversation

/-- Model of the chat-history list built by `_ask_document_question` from
the route-provided history (which is ordered most-recent-first):
`for conv in reversed(conversation_history[:5]):
chat_history.append((conv.question, conv.answer))`. -/
def documentChatHistory (conversation_history : List Conversation) :
    List (String × String) :=
  ((conversation_history.take 5).reverse).map (fun c => (c.question, c.answer))

/-- The retriever `k` used by `_ask_document_question`
(`search_kwargs` with k = 3). -/
def documentRetrievalK : Nat := 3

/-! Search utility, from langchain_service.py. -/

/-- Model of one entry of the result list built by
`LangChainService.search_documents`. -/
structure SearchResult where
  document_id : Int
  document_name : String
  content : String
  similarity_score : Rat
  relevance : String
deriving DecidableEq, Repr

/-- The relevance bucket assigned by `search_documents` from the FAISS
distance score: `'High' if score < 0.5 else 'Medium' if score < 1.0 else
'Low'`. -/
def relevanceBucket (score : Rat) : String :=
  if score < 1/2 then "High" else if score < 1 then "Medium" else "Low"

/-- Model of the result-collection loop of
`LangChainService.search_documents`.  The per-store
`similarity_search_with_score(query, k=3)` outputs are the `hits`
parameter; stores without a surviving `Document` row are skipped
(`Document.query.get` returning `None`). -/
def searchResultsRaw (vector_stores : List (Int × VectorStore))
    (docs : List Document) (hits : Int → List (String × Rat)) :
    List SearchResult :=
  (vector_stores.map (fun p =>
    match docs.find? (fun d => d.id == p.1) with
    | none => []
    | some document =>
      (hits p.1).map (fun h =>
        { document_id := p.1
          document_name := document.original_filename
          content := h.1.take 300 ++ "..."
          similarity_score := h.2
          relevance := relevanceBucket h.2 : SearchResult }))).flatten

/-- Model of `LangChainService.search_documents`: collect the per-store
results, sort ascending by `similarity_score` (Python's stable list sort,
modelled by the stable `List.insertionSort`), return the first 10. -/
def search_documents (vector_stores : List (Int × VectorStore))
    (docs : List Document) (hits : Int → List (String × Rat)) :
    List SearchResult :=
  (List.insertionSort (fun a b => a.similarity_score ≤ b.similarity_score)
    (searchResultsRaw vector_stores docs hits)).take 10

/-! HTTP routes, from routes.py. -/

/-- Lowercased text after the last dot of a filename, computed on the
character sequence: Python's `filename.rsplit('.', 1)[1].lower()` whenever
the filename contains a dot. -/
def extensionOf (filename : String) : List Char :=
  ((filename.toList.splitOn '.').getLastD []).map Char.toLower

/-- Model of `allowed_file` of routes.py: the filename must contain a dot
and its last dot-separated component, lowercased, must be `txt` or
`pdf`. -/
def allowed_file (filename : String) : Bool :=
  filename.toList.contains '.' &&
    (extensionOf filename == ['t', 'x', 't'] || extensionOf filename == ['p', 'd', 'f'])

/-- The `Document` row created by the upload route before ingestion runs:
`processed` defaults to false and `summary` to null (models.py column
defaults). -/
def uploadBaseDoc (original_filename filename unique_filename file_path : String)
    (newId : Int) (now : Nat) : Document :=
  { id := newId
    filename := unique_filename
    original_filename := original_filename
    file_path := file_path
    file_type := String.mk (extensionOf filename)
    upload_time := now
    processed := false
    summary := none }

/-- The `Document` row as it stands when the upload route serializes it:
only a successful `process_document` return flips `processed` and stores
the summary; a failure return or a raised exception (caught by the inner
`try`) leaves the freshly created row untouched. -/
def uploadFinalDoc (original_filename filename unique_filename file_path : String)
    (newId : Int) (now : Nat)
    (processResult : Except String (Bool × String)) : Document :=
  match processResult with
  | Except.ok (true, s) =>
    { uploadBaseDoc original_filename filename unique_filename file_path newId now with
        processed := true, summary := some s }
  | Except.ok (false, _) =>
    uploadBaseDoc original_filename filename unique_filename file_path newId now
  | Except.error _ =>
    uploadBaseDoc original_filename filename unique_filename file_path newId now

/-- Model of the `upload_file` route of routes.py.  `filename` is the
werkzeug `secure_filename` output, `unique_filename` the uuid-prefixed
stored name, `file_path` the storage path — all produced outside the
repository's logic.  `processResult` is the outcome of
`langchain_service.process_document`: `Except.error` models a raised
exception (caught by the inner `try`), `Except.ok (success, summary)` a
normal return.  Returns `((http_status, serialized document if any),
resulting Document table)`. -/
def upload_file (original_filename filename unique_filename file_path : String)
    (processResult : Except String (Bool × String))
    (docs : List Document) (newId : Int) (now : Nat) :
    (Nat × Option Document) × List Document :=
  if original_filename == "" then ((400, none), docs)
  else if !allowed_file original_filename then ((400, none), docs)
  else
    let document := uploadFinalDoc original_filename filename unique_filename
      file_path newId now processResult
    ((200, some document), docs ++ [document])

/-- Model of the conversation-history query of the `ask_question` route:
`Conversation.query.filter_by(session_id=...).order_by(
Conversation.timestamp.desc()).limit(10).all()` — the session's rows,
newest first, at most 10. -/
def routeConversationHistory (convs : List Conversation) (session_id : String) :
    List Conversation :=
  (List.insertionSort (fun a b => b.timestamp ≤ a.timestamp)
    (convs.filter (fun c => c.session_id == session_id))).take 10

/-- Model of the `clear_session` route: when a truthy session id is
present, delete that session's `Conversation` rows and issue a fresh uuid
(the `newId` parameter); otherwise do nothing.  Returns the resulting
session cookie and application state. -/
def clear_session (sessionCookie : Option String) (newId : String)
    (st : AppState) : Option String × AppState :=
  if pyTruthyStr sessionCookie then
    match sessionCookie with
    | none => (sessionCookie, st)
    | some sid =>
      (some newId,
       { st with conversations := st.conversations.filter (fun c => !(c.session_id == sid)) })
  else
    (sessionCookie, st)

/-- Model of the `delete_document` route: look the row up by primary key
(404 when absent), remove the backing file when it exists, delete the
`Conversation` rows referencing the document, delete the `Document` row.
The filesystem is the list of existing paths; the `LangChainService`
state is passed through untouched, exactly as in the route body, which
never references `langchain_service`. -/
def delete_document (document_id : Int) (st : AppState) (fs : List String)
    (svc : ServiceState) : Nat × AppState × List String × ServiceState :=
  match st.documents.find? (fun d => d.id == document_id) with
  | none => (404, st, fs, svc)
  | some document =>
    let fs1 := if fs.contains document.file_path then
                 fs.filter (fun p => !(p == document.file_path))
               else fs
    let convs1 := st.conversations.filter (fun c => !(c.document_id == some document_id))
    let docs1 := st.documents.filter (fun d => !(d.id == document_id))
    (200, ⟨docs1, convs1⟩, fs1, svc)

/-- The `Conversation` row saved by the `compare_documents` route: the
document id is null (a multi-document comparison), the answer is the LLM
comparison output. -/
def comparisonConversation (documents : List Document)
    (session_id llmResult : String) (newConvId : Int) (now : Nat) :
    Conversation :=
  { id := newConvId
    session_id := session_id
    document_id := none
    question := "Compare documents: " ++
      String.intercalate ", " (documents.map (fun d => d.original_filename))
    answer := llmResult
    timestamp := now
    context_used := "Compared " ++ toString documents.length ++ " documents" }

/-- The Document rows the `compare_documents` route resolves its ids to:
`Document.query.filter(Document.id.in_(document_ids)).all()`. -/
def resolvedDocuments (document_ids : List Int) (docs : List Document) :
    List Document :=
  docs.filter (fun d => decide (d.id ∈ document_ids))

/-- Model of the `compare_documents` route: fewer than 2 ids is a 400;
the ids are resolved with `Document.query.filter(Document.id.in_(ids))`
and a count mismatch is a 404; otherwise the comparison (`llmResult`, an
LLM output) is saved as a `Conversation` with a null document id.
Returns `(http_status, resulting Conversation table)`. -/
def compare_documents_route (document_ids : List Int) (docs : List Document)
    (convs : List Conversation) (session_id llmResult : String)
    (newConvId : Int) (now : Nat) : Nat × List Conversation :=
  if document_ids.length < 2 then (400, convs)
  else
    let documents := resolvedDocuments document_ids docs
    if documents.length ≠ document_ids.length then (404, convs)
    else
      (200, convs ++ [comparisonConversation documents session_id llmResult newConvId now])

/-- Referential integrity of the Conversation table: every stored document
reference names an existing Document row (§3 invariant of the design
note). -/
def convRefsOk (docs : List Document) (convs : List Conversation) : Prop :=
  ∀ c ∈ convs, c.document_id = none ∨ ∃ d ∈ docs, some d.id = c.document_id

instance (docs : List Document) (convs : List Conversation) :
    Decidable (convRefsOk docs convs) := by
  unfold convRefsOk
  infer_instance

/-! Concrete fixtures used by witness and counterexample theorems. -/

/-- Fixture: a processed text document with id 1. -/
def exDoc1 : Document :=
  { id := 1, filename := "u1_a.txt", original_filename := "a.txt",
    file_path := "/uploads/u1_a.txt", file_type := "txt", upload_time := 1,
    processed := true, summary := some "s1" }

/-- Fixture: a processed text document with id 2. -/
def exDoc2 : Document :=
  { id := 2, filename := "u2_b.txt", original_filename := "b.txt",
    file_path := "/uploads/u2_b.txt", file_type := "txt", upload_time := 2,
    processed := true, summary := some "s2" }

/-- Fixture: an older conversation turn of session `s`. -/
def exConvOld : Conversation :=
  { id := 1, session_id := "s", document_id := some 1, question := "q1",
    answer := "a1", timestamp := 1, context_used := "c1" }

/-- Fixture: a newer conversation turn of session `s`. -/
def exConvNew : Conversation :=
  { id := 2, session_id := "s", document_id := none, question := "q2",
    answer := "a2", timestamp := 2, context_used := "c2" }

/-- Fixture: a conversation turn of a different session `t`. -/
def exConvOther : Conversation :=
  { id := 3, session_id := "t", document_id := some 1, question := "q3",
    answer := "a3", timestamp := 3, context_used := "c3" }

/-! Theorems. -/

/-- C1: for every question, `ask_question` selects exactly one of three
modes: a supplied document id with an entry in the vector-store map is
answered document-scoped; otherwise a non-empty vector-store map is
answered cross-document; otherwise the conversational fallback answers
with an empty context string.  The hypotheses record two run-time
invariants: vector-store keys are database primary keys (hence non-zero),
and FAISS similarity search on a built (non-empty) index returns at least
one hit. -/
theorem ask_question_mode_selection (document_id : Option Int)
    (vector_stores : List (Int × VectorStore))
    (docHits : List String) (crossHits : Int → List String)
    (hkeys : ∀ p ∈ vector_stores, p.1 ≠ 0)
    (hhits : ∀ p ∈ vector_stores, crossHits p.1 ≠ []) :
    (dictContains vector_stores document_id = true →
      (ask_question document_id vector_stores docHits crossHits).1 = QAMode.docScoped) ∧
    (dictContains vector_stores document_id = false → vector_stores ≠ [] →
      (ask_question document_id vector_stores docHits crossHits).1 = QAMode.crossDoc) ∧
    (vector_stores = [] →
      ask_question document_id vector_stores docHits crossHits = (QAMode.fallback, "")) := by
  refine ⟨?_, ?_, ?_⟩
  · intro hc
    cases document_id with
    | none => simp [dictContains] at hc
    | some i =>
      have hi : i ≠ 0 := by
        have hmem : ∃ v, (i, v) ∈ vector_stores := by simpa [dictContains] using hc
        rcases hmem with ⟨v, hv⟩
        exact hkeys (i, v) hv
      have ht : pyTruthyInt (some i) = true := by simp [pyTruthyInt, hi]
      simp [ask_question, ht, hc, ask_document_question]
  · intro hc hne
    have hall : crossAllDocs vector_stores crossHits ≠ [] := by
      cases vector_stores with
      | nil => exact absurd rfl hne
      | cons p rest =>
        intro hflat
        have hempty : ∀ l ∈ ((p :: rest).map (fun q => crossHits q.1)), l = [] :=
          List.flatten_eq_nil_iff.mp hflat
        exact hhits p (List.mem_cons_self p rest)
          (hempty _ (List.mem_map_of_mem _ (List.mem_cons_self p rest)))
    simp [ask_question, hc, ask_general_question, hne,
      List.isEmpty_iff, hall]
  · intro hnil
    subst hnil
    cases document_id <;>
      simp [ask_question, dictContains, ask_general_conversation, pyTruthyInt]

/-- Witness for C1 at concrete inputs: a mapped id yields document-scoped
mode, an unmapped id with a non-empty map yields cross-document mode, and
an empty map yields the fallback with empty context. -/
theorem ask_question_mode_selection_witness :
    (ask_question (some 1) [(1, ⟨["chunk"]⟩)] ["hit"] (fun _ => ["x"])).1
      = QAMode.docScoped ∧
    (ask_question (some 7) [(1, ⟨["chunk"]⟩)] ["hit"] (fun _ => ["x"])).1
      = QAMode.crossDoc ∧
    ask_question (some 7) [] ["hit"] (fun _ => ["x"]) = (QAMode.fallback, "") := by
  refine ⟨?_, ?_, ?_⟩
  · exact (ask_question_mode_selection (some 1) [(1, ⟨["chunk"]⟩)] ["hit"]
      (fun _ => ["x"]) (by decide) (by decide)).1 (by decide)
  · exact (ask_question_mode_selection (some 7) [(1, ⟨["chunk"]⟩)] ["hit"]
      (fun _ => ["x"]) (by decide) (by decide)).2.1 (by decide) (by decide)
  · exact (ask_question_mode_selection (some 7) [] ["hit"]
      (fun _ => ["x"]) (by decide) (by decide)).2.2 rfl

/-- C2: for every query and every state of the per-document vector
indices, `search_documents` returns a list sorted in ascending order of
`similarity_score` and containing at most 10 results. -/
theorem search_documents_sorted_top10 (vector_stores : List (Int × VectorStore))
    (docs : List Document) (hits : Int → List (String × Rat)) :
    List.Sorted (fun a b => a.similarity_score ≤ b.similarity_score)
      (search_documents vector_stores docs hits) ∧
    (search_documents vector_stores docs hits).length ≤ 10 := by
  constructor
  · apply List.Pairwise.sublist (List.take_sublist _ _)
    haveI : IsTotal SearchResult (fun a b => a.similarity_score ≤ b.similarity_score) :=
      ⟨fun a b => le_total _ _⟩
    haveI : IsTrans SearchResult (fun a b => a.similarity_score ≤ b.similarity_score) :=
      ⟨fun _ _ _ hab hbc => le_trans hab hbc⟩
    exact List.sorted_insertionSort _ _
  · simp [search_documents]

/-- Counterexample to C3 as stated: uploading `notes.docx`, whose
extension is neither txt nor pdf, does not yield any Document record
(with or without processed = false) — the route answers HTTP 400 and
leaves the Document table untouched. -/
theorem upload_unsupported_counterexample :
    (upload_file "notes.docx" "notes.docx" "u_notes.docx"
        "/uploads/u_notes.docx" (Except.error "not attempted") [] 1 0).1 = (400, none) ∧
    (upload_file "notes.docx" "notes.docx" "u_notes.docx"
        "/uploads/u_notes.docx" (Except.error "not attempted") [] 1 0).2 = [] ∧
    ¬ ∃ d : Document,
        (upload_file "notes.docx" "notes.docx" "u_notes.docx"
          "/uploads/u_notes.docx" (Except.error "not attempted") [] 1 0).1.2 = some d := by
  refine ⟨by decide, by decide, ?_⟩
  rintro ⟨d, hd⟩
  have h0 : (upload_file "notes.docx" "notes.docx" "u_notes.docx"
      "/uploads/u_notes.docx" (Except.error "not attempted") [] 1 0).1.2 = none := by decide
  rw [h0] at hd
  exact Option.noConfusion hd

/-- C3 (amended): uploading a file whose extension is neither txt nor pdf
is rejected with HTTP 400 and creates no Document record; and
`process_document`, given a file path ending in neither ".pdf" nor
".txt", returns failure with the error string "Unsupported file type"
and leaves the service state (text map and vector-store map) untouched,
so nothing is loaded, chunked or embedded. -/
theorem unsupported_file_type_rejected
    (original_filename filename unique_filename file_path : String)
    (processResult : Except String (Bool × String)) (docs : List Document)
    (newId : Int) (now : Nat)
    (p : String) (pid : Int) (pages chunks : List String) (llmSummary : String)
    (svc : ServiceState)
    (hbad : allowed_file original_filename = false)
    (hp1 : strEndsWith p ".pdf" = false)
    (hp2 : strEndsWith p ".txt" = false) :
    upload_file original_filename filename unique_filename file_path
        processResult docs newId now = ((400, none), docs) ∧
    process_document p pid pages chunks llmSummary svc
      = ((false, "Unsupported file type"), svc) := by
  constructor
  · by_cases h0 : original_filename == ""
    · simp [upload_file, h0]
    · simp [upload_file, h0, hbad]
  · simp [process_document, hp1, hp2]

/-- Witness for C3 (amended) at a markdown upload. -/
theorem unsupported_file_type_rejected_witness :
    upload_file "report.md" "report.md" "u_report.md" "/uploads/u_report.md"
        (Except.error "skipped") [exDoc1] 9 4 = ((400, none), [exDoc1]) ∧
    process_document "/uploads/u_report.md" 9 [] [] "sum" ⟨[], []⟩
      = ((false, "Unsupported file type"), ⟨[], []⟩) :=
  unsupported_file_type_rejected "report.md" "report.md" "u_report.md"
    "/uploads/u_report.md" (Except.error "skipped") [exDoc1] 9 4
    "/uploads/u_report.md" 9 [] [] "sum" ⟨[], []⟩
    (by decide) (by decide) (by decide)

/-- C9: an upload of a supported file type answers HTTP 200 with the
serialized Document record for every ingestion outcome; when ingestion
fails (a failure return or a raised exception) the returned record has
processed = false and a null summary — the upload request itself never
fails. -/
theorem upload_ingestion_failure_tolerant
    (original_filename filename unique_filename file_path : String)
    (processResult : Except String (Bool × String)) (docs : List Document)
    (newId : Int) (now : Nat)
    (hok : allowed_file original_filename = true) :
    (upload_file original_filename filename unique_filename file_path
        processResult docs newId now).1.1 = 200 ∧
    (upload_file original_filename filename unique_filename file_path
        processResult docs newId now).1.2
      = some (uploadFinalDoc original_filename filename unique_filename
          file_path newId now processResult) ∧
    (upload_file original_filename filename unique_filename file_path
        processResult docs newId now).2
      = docs ++ [uploadFinalDoc original_filename filename unique_filename
          file_path newId now processResult] ∧
    ((∀ s, processResult ≠ Except.ok (true, s)) →
      (uploadFinalDoc original_filename filename unique_filename
          file_path newId now processResult).processed = false ∧
      (uploadFinalDoc original_filename filename unique_filename
          file_path newId now processResult).summary = none) := by
  have hne : (original_filename == "") = false := by
    rcases h : original_filename == "" with _ | _
    · rfl
    · have heq : original_filename = "" := by simpa using h
      rw [heq] at hok
      exact absurd hok (by decide)
  refine ⟨by simp [upload_file, hne, hok], by simp [upload_file, hne, hok],
    by simp [upload_file, hne, hok], ?_⟩
  intro hfail
  cases processResult with
  | error e => exact ⟨rfl, rfl⟩
  | ok pr =>
    rcases pr with ⟨b, s⟩
    cases b with
    | false => exact ⟨rfl, rfl⟩
    | true => exact absurd rfl (hfail s)

/-- Witness for C9: a txt upload whose ingestion raises still answers 200
with a processed = false, summary-less record. -/
theorem upload_ingestion_failure_tolerant_witness :
    (upload_file "a.txt" "a.txt" "u_a.txt" "/uploads/u_a.txt"
        (Except.error "boom") [] 1 0).1.1 = 200 ∧
    (upload_file "a.txt" "a.txt" "u_a.txt" "/uploads/u_a.txt"
        (Except.error "boom") [] 1 0).1.2
      = some (uploadFinalDoc "a.txt" "a.txt" "u_a.txt" "/uploads/u_a.txt" 1 0
          (Except.error "boom")) ∧
    (uploadFinalDoc "a.txt" "a.txt" "u_a.txt" "/uploads/u_a.txt" 1 0
        (Except.error "boom")).processed = false ∧
    (uploadFinalDoc "a.txt" "a.txt" "u_a.txt" "/uploads/u_a.txt" 1 0
        (Except.error "boom")).summary = none := by
  have h := upload_ingestion_failure_tolerant "a.txt" "a.txt" "u_a.txt"
    "/uploads/u_a.txt" (Except.error "boom") [] 1 0 (by decide)
  have hq := h.2.2.2 (by intro s hs; exact Except.noConfusion hs)
  exact ⟨h.1, h.2.1, hq.1, hq.2⟩

/-- C4: summary generation sends to the LLM at most the first 3000
characters of the document's full text (texts longer than 3000 characters
are truncated there and suffixed with three dots) and caps the completion
at 150 output tokens. -/
theorem generate_summary_truncation (t : List Char) :
    (summaryText t).take 3000 = t.take 3000 ∧
    (t.length ≤ 3000 → summaryText t = t) ∧
    (3000 < t.length → summaryText t = t.take 3000 ++ ['.', '.', '.']) ∧
    summaryMaxTokens = 150 := by
  refine ⟨?_, ?_, ?_, rfl⟩
  · by_cases h : 3000 < t.length
    · have hlen : 3000 ≤ (t.take 3000).length := by
        simp [List.length_take]
        omega
      simp [summaryText, h, List.take_append_of_le_length hlen, List.take_take]
    · simp [summaryText, h]
  · intro h
    simp [summaryText, Nat.not_lt.mpr h]
  · intro h
    simp [summaryText, h]

/-- Witness for C4 at a 3004-character text and at a short text. -/
theorem generate_summary_truncation_witness :
    summaryText (List.replicate 3004 'a') =
      (List.replicate 3004 'a').take 3000 ++ ['.', '.', '.'] ∧
    summaryText ['h', 'i'] = ['h', 'i'] ∧
    summaryMaxTokens = 150 := by
  refine ⟨?_, ?_, (generate_summary_truncation ['h', 'i']).2.2.2⟩
  · exact (generate_summary_truncation (List.replicate 3004 'a')).2.2.1
      (by rw [List.length_replicate]; norm_num)
  · exact (generate_summary_truncation ['h', 'i']).2.1 (by norm_num)

/-- Helper for C5: when the Document ids are distinct (primary keys) and
some requested id resolves to no row, the resolved-row count falls short
of the request length. -/
theorem resolved_count_lt_of_missing (docs : List Document) (ids : List Int)
    (i : Int) (hnd : (docs.map Document.id).Nodup) (hi : i ∈ ids)
    (hmiss : ∀ d ∈ docs, d.id ≠ i) :
    (resolvedDocuments ids docs).length < ids.length := by
  set l := (resolvedDocuments ids docs).map Document.id with hl
  have hsub : l.Sublist (docs.map Document.id) :=
    List.Sublist.map _ (List.filter_sublist _)
  have hndl : l.Nodup := hnd.sublist hsub
  have hmem : ∀ x ∈ l, x ∈ ids ∧ x ≠ i := by
    intro x hx
    rcases List.mem_map.mp hx with ⟨d, hd, rfl⟩
    rcases List.mem_filter.mp hd with ⟨hdd, hcontains⟩
    exact ⟨by simpa using hcontains, hmiss d hdd⟩
  have hfs : l.toFinset ⊆ ids.toFinset.erase i := by
    intro x hx
    rw [List.mem_toFinset] at hx
    exact Finset.mem_erase.mpr ⟨(hmem x hx).2, List.mem_toFinset.mpr (hmem x hx).1⟩
  have h1 : l.toFinset.card = l.length := List.toFinset_card_of_nodup hndl
  have h2 : l.toFinset.card ≤ (ids.toFinset.erase i).card := Finset.card_le_card hfs
  have h3 : (ids.toFinset.erase i).card = ids.toFinset.card - 1 :=
    Finset.card_erase_of_mem (List.mem_toFinset.mpr hi)
  have h4 : ids.toFinset.card ≤ ids.length := List.toFinset_card_le ids
  have h5 : 1 ≤ ids.toFinset.card :=
    Finset.card_pos.mpr ⟨i, List.mem_toFinset.mpr hi⟩
  have h6 : (resolvedDocuments ids docs).length = l.length :=
    (List.length_map _ _).symm
  omega

/-- C5: a comparison request with fewer than 2 ids fails with HTTP 400 and
saves no Conversation row; a request at least one of whose ids resolves to
no Document fails with HTTP 404 and saves no row; and when the comparison
is performed (HTTP 200), every id resolved and the result is saved as one
new Conversation whose document id is null.  Document ids are distinct,
being primary keys. -/
theorem compare_documents_validation (ids : List Int) (docs : List Document)
    (convs : List Conversation) (sid llmResult : String) (cid : Int) (now : Nat)
    (hnd : (docs.map Document.id).Nodup) :
    (ids.length < 2 →
      compare_documents_route ids docs convs sid llmResult cid now = (400, convs)) ∧
    (2 ≤ ids.length → (∃ i ∈ ids, ∀ d ∈ docs, d.id ≠ i) →
      compare_documents_route ids docs convs sid llmResult cid now = (404, convs)) ∧
    ((compare_documents_route ids docs convs sid llmResult cid now).1 = 200 →
      (∀ i ∈ ids, ∃ d ∈ docs, d.id = i) ∧
      ∃ c, (compare_documents_route ids docs convs sid llmResult cid now).2
            = convs ++ [c] ∧ c.document_id = none) := by
  refine ⟨?_, ?_, ?_⟩
  · intro h
    simp [compare_documents_route, h]
  · rintro h2 ⟨i, hi, hmiss⟩
    have hlt := resolved_count_lt_of_missing docs ids i hnd hi hmiss
    have hne : (resolvedDocuments ids docs).length ≠ ids.length :=
      Nat.ne_of_lt hlt
    simp [compare_documents_route, Nat.not_lt.mpr h2, hne]
  · intro h200
    by_cases hlen : ids.length < 2
    · exact absurd h200 (by simp [compare_documents_route, hlen])
    · by_cases heq : (resolvedDocuments ids docs).length = ids.length
      · constructor
        · intro i hi
          by_contra hno
          push_neg at hno
          have hlt := resolved_count_lt_of_missing docs ids i hnd hi hno
          omega
        · exact ⟨comparisonConversation (resolvedDocuments ids docs)
            sid llmResult cid now, by simp [compare_documents_route, hlen, heq], rfl⟩
      · exact absurd h200 (by simp [compare_documents_route, hlen, heq])

/-- Witness for C5: comparing the two fixture documents by ids 1 and 2
resolves both ids and appends exactly one null-document Conversation; a
one-id request yields 400 with the table unchanged. -/
theorem compare_documents_validation_witness :
    compare_documents_route [1] [exDoc1, exDoc2] [exConvOther] "s" "cmp" 9 5
      = (400, [exConvOther]) ∧
    (∀ i ∈ [(1 : Int), 2], ∃ d ∈ [exDoc1, exDoc2], d.id = i) ∧
    ∃ c, (compare_documents_route [1, 2] [exDoc1, exDoc2] [] "s" "cmp" 9 5).2
          = [] ++ [c] ∧ c.document_id = none := by
  refine ⟨?_, ?_⟩
  · exact (compare_documents_validation [1] [exDoc1, exDoc2] [exConvOther]
      "s" "cmp" 9 5 (by decide)).1 (by decide)
  · exact (compare_documents_validation [1, 2] [exDoc1, exDoc2] []
      "s" "cmp" 9 5 (by decide)).2.2 (by decide)

/-- C6: clearing a session with a current identifier removes exactly that
session's Conversation rows, keeps every other session's rows and all
Document rows, and replaces the session identifier with the freshly
generated one. -/
theorem clear_session_exact (sid newId : String) (st : AppState)
    (hsid : sid ≠ "") (hfresh : newId ≠ sid) :
    (clear_session (some sid) newId st).1 = some newId ∧
    (clear_session (some sid) newId st).1 ≠ some sid ∧
    (clear_session (some sid) newId st).2.documents = st.documents ∧
    (∀ c, c ∈ (clear_session (some sid) newId st).2.conversations ↔
      c ∈ st.conversations ∧ c.session_id ≠ sid) := by
  have hb : pyTruthyStr (some sid) = true := by
    simp [pyTruthyStr, hsid]
  refine ⟨?_, ?_, ?_, ?_⟩
  · simp [clear_session, hb]
  · simp [clear_session, hb, hfresh]
  · simp [clear_session, hb]
  · intro c
    simp [clear_session, hb, List.mem_filter]

/-- C7: deleting a Document with an existing id answers 200, removes its
backing file from storage, removes exactly the Conversation rows
referencing it, removes the Document row (and no other), and preserves
referential integrity: afterwards no Conversation row references a
non-existent Document.  Document ids are distinct, being primary keys. -/
theorem delete_document_cascade (document_id : Int) (st : AppState)
    (fs : List String) (svc : ServiceState)
    (hnd : (st.documents.map Document.id).Nodup)
    (hex : ∃ d ∈ st.documents, d.id = document_id)
    (hinv : convRefsOk st.documents st.conversations) :
    (delete_document document_id st fs svc).1 = 200 ∧
    (∀ d ∈ st.documents, d.id = document_id →
      d.file_path ∉ (delete_document document_id st fs svc).2.2.1) ∧
    ((delete_document document_id st fs svc).2.1.conversations
      = st.conversations.filter (fun c => !(c.document_id == some document_id))) ∧
    (∀ d, d ∈ (delete_document document_id st fs svc).2.1.documents ↔
      d ∈ st.documents ∧ d.id ≠ document_id) ∧
    convRefsOk (delete_document document_id st fs svc).2.1.documents
      (delete_document document_id st fs svc).2.1.conversations := by
  obtain ⟨d0, hd0, hid0⟩ := hex
  have hfsome : (st.documents.find? (fun d => d.id == document_id)).isSome := by
    rw [List.find?_isSome]
    exact ⟨d0, hd0, by simp [hid0]⟩
  obtain ⟨dd, hdd⟩ := Option.isSome_iff_exists.mp hfsome
  have hddid : dd.id = document_id := by simpa using List.find?_some hdd
  have hddmem : dd ∈ st.documents := List.mem_of_find?_eq_some hdd
  refine ⟨by simp [delete_document, hdd], ?_, by simp [delete_document, hdd],
    ?_, ?_⟩
  · intro d hd hdid
    have hdd0 : d = dd :=
      List.inj_on_of_nodup_map hnd hd hddmem (by rw [hdid, hddid])
    subst hdd0
    simp only [delete_document, hdd]
    by_cases hc : d.file_path ∈ fs
    · simp [hc, List.mem_filter]
    · rw [if_neg (show ¬ fs.contains d.file_path = true by simpa using hc)]
      exact hc
  · intro d
    simp [delete_document, hdd, List.mem_filter]
  · intro c hc
    simp only [delete_document, hdd] at hc ⊢
    rcases List.mem_filter.mp hc with ⟨hcmem, hcpred⟩
    have hcne : c.document_id ≠ some document_id := by simpa using hcpred
    rcases hinv c hcmem with hnone | ⟨d, hdmem, hdid⟩
    · exact Or.inl hnone
    · refine Or.inr ⟨d, List.mem_filter.mpr ⟨hdmem, ?_⟩, hdid⟩
      have hdne : d.id ≠ document_id := by
        intro hdeq
        exact hcne (by rw [← hdid, hdeq])
      simpa using hdne

/-- Witness for C7: deleting fixture document 1 answers 200, drops its
backing file, keeps document 2, and preserves referential integrity. -/
theorem delete_document_cascade_witness :
    (delete_document 1 ⟨[exDoc1, exDoc2], [exConvOld, exConvNew, exConvOther]⟩
        ["/uploads/u1_a.txt", "/uploads/u2_b.txt"] ⟨[], []⟩).1 = 200 ∧
    exDoc1.file_path ∉
      (delete_document 1 ⟨[exDoc1, exDoc2], [exConvOld, exConvNew, exConvOther]⟩
        ["/uploads/u1_a.txt", "/uploads/u2_b.txt"] ⟨[], []⟩).2.2.1 ∧
    (exDoc2 ∈ (delete_document 1 ⟨[exDoc1, exDoc2], [exConvOld, exConvNew, exConvOther]⟩
        ["/uploads/u1_a.txt", "/uploads/u2_b.txt"] ⟨[], []⟩).2.1.documents ↔
      exDoc2 ∈ [exDoc1, exDoc2] ∧ exDoc2.id ≠ 1) ∧
    convRefsOk
      (delete_document 1 ⟨[exDoc1, exDoc2], [exConvOld, exConvNew, exConvOther]⟩
        ["/uploads/u1_a.txt", "/uploads/u2_b.txt"] ⟨[], []⟩).2.1.documents
      (delete_document 1 ⟨[exDoc1, exDoc2], [exConvOld, exConvNew, exConvOther]⟩
        ["/uploads/u1_a.txt", "/uploads/u2_b.txt"] ⟨[], []⟩).2.1.conversations := by
  have h := delete_document_cascade 1
    ⟨[exDoc1, exDoc2], [exConvOld, exConvNew, exConvOther]⟩
    ["/uploads/u1_a.txt", "/uploads/u2_b.txt"] ⟨[], []⟩
    (by decide) (by decide) (by decide)
  exact ⟨h.1, h.2.1 exDoc1 (by decide) (by decide), h.2.2.2.1 exDoc2, h.2.2.2.2⟩

/-- Witness for C6: clearing session `s` removes its two rows, keeps the
other session's row, and installs the fresh identifier. -/
theorem clear_session_exact_witness :
    (clear_session (some "s") "fresh" ⟨[exDoc1], [exConvOld, exConvNew, exConvOther]⟩).1
      = some "fresh" ∧
    (exConvOther ∈ (clear_session (some "s") "fresh"
      ⟨[exDoc1], [exConvOld, exConvNew, exConvOther]⟩).2.conversations ↔
      exConvOther ∈ [exConvOld, exConvNew, exConvOther] ∧ exConvOther.session_id ≠ "s") := by
  refine ⟨?_, ?_⟩
  · exact (clear_session_exact "s" "fresh" ⟨[exDoc1], [exConvOld, exConvNew, exConvOther]⟩
      (by decide) (by decide)).1
  · exact (clear_session_exact "s" "fresh" ⟨[exDoc1], [exConvOld, exConvNew, exConvOther]⟩
      (by decide) (by decide)).2.2.2 exConvOther

/-- Counterexample to C8 as stated: with two prior turns (supplied by the
route newest first) the chat history built for the LLM is oldest-first —
the reverse of the claimed reverse-chronological order. -/
theorem document_chat_history_order_counterexample :
    documentChatHistory (routeConversationHistory [exConvOld, exConvNew] "s")
      ≠ ((routeConversationHistory [exConvOld, exConvNew] "s").take 5).map
          (fun c => (c.question, c.answer)) := by decide

/-- C8 (amended): in document-scoped mode the chat history passed to the
LLM consists of the up to 5 most recent prior turns of the session in
chronological (oldest-first) order — the code reverses the newest-first
window it receives — and retrieval fetches the top 3 chunks from the
named document's vector index. -/
theorem document_chat_history_chronological (convs : List Conversation)
    (sid : String) :
    documentChatHistory (routeConversationHistory convs sid)
      = (((routeConversationHistory convs sid).take 5).reverse).map
          (fun c => (c.question, c.answer)) ∧
    (((routeConversationHistory convs sid).take 5).reverse).length ≤ 5 ∧
    (∀ c ∈ ((routeConversationHistory convs sid).take 5).reverse,
      c ∈ convs ∧ c.session_id = sid) ∧
    List.Sorted (fun a b => a.timestamp ≤ b.timestamp)
      (((routeConversationHistory convs sid).take 5).reverse) ∧
    (∀ c ∈ ((routeConversationHistory convs sid).take 5).reverse,
      ∀ e ∈ convs, e.session_id = sid →
        e ∉ routeConversationHistory convs sid →
        e.timestamp ≤ c.timestamp) ∧
    documentRetrievalK = 3 := by
  haveI : IsTotal Conversation (fun a b => b.timestamp ≤ a.timestamp) :=
    ⟨fun a b => (le_total a.timestamp b.timestamp).symm⟩
  haveI : IsTrans Conversation (fun a b => b.timestamp ≤ a.timestamp) :=
    ⟨fun _ _ _ hab hbc => le_trans hbc hab⟩
  set filtered := convs.filter (fun c => c.session_id == sid) with hfl
  set sorted :=
    List.insertionSort (fun a b => b.timestamp ≤ a.timestamp) filtered with hsl
  have hroute : routeConversationHistory convs sid = sorted.take 10 := rfl
  have hsorted :
      List.Pairwise (fun a b => b.timestamp ≤ a.timestamp) sorted :=
    List.sorted_insertionSort _ _
  have hhist :
      List.Pairwise (fun a b => b.timestamp ≤ a.timestamp) (sorted.take 10) :=
    List.Pairwise.sublist (List.take_sublist _ _) hsorted
  have hmemhist : ∀ c ∈ sorted.take 10, c ∈ convs ∧ c.session_id = sid := by
    intro c hc
    have hcs : c ∈ sorted := (List.take_sublist _ _).subset hc
    have hcf : c ∈ filtered := (List.perm_insertionSort _ _).mem_iff.mp hcs
    rcases List.mem_filter.mp hcf with ⟨h1, h2⟩
    exact ⟨h1, by simpa using h2⟩
  have hdom : ∀ c ∈ sorted.take 10, ∀ e ∈ convs, e.session_id = sid →
      e ∉ sorted.take 10 → e.timestamp ≤ c.timestamp := by
    intro c hc e he hes hnotin
    have hef : e ∈ filtered := List.mem_filter.mpr ⟨he, by simpa using hes⟩
    have hesorted : e ∈ sorted := (List.perm_insertionSort _ _).mem_iff.mpr hef
    have hsplit : sorted = sorted.take 10 ++ sorted.drop 10 :=
      (List.take_append_drop 10 sorted).symm
    have hedrop : e ∈ sorted.drop 10 := by
      rcases List.mem_append.mp (hsplit ▸ hesorted) with h | h
      · exact absurd h hnotin
      · exact h
    have hpw := hsplit ▸ hsorted
    rcases List.pairwise_append.mp hpw with ⟨_, _, hcross⟩
    exact hcross c hc e hedrop
  refine ⟨rfl, ?_, ?_, ?_, ?_, rfl⟩
  · rw [hroute, List.length_reverse]
    exact List.length_take_le _ _
  · intro c hc
    rw [hroute, List.mem_reverse] at hc
    exact hmemhist c ((List.take_sublist _ _).subset hc)
  · rw [hroute]
    show List.Pairwise (fun a b => a.timestamp ≤ b.timestamp)
      ((List.take 5 (List.take 10 sorted)).reverse)
    rw [List.pairwise_reverse]
    exact List.Pairwise.sublist (List.take_sublist _ _) hhist
  · intro c hc e he hes hnotin
    rw [hroute, List.mem_reverse] at hc
    rw [hroute] at hnotin
    exact hdom c ((List.take_sublist _ _).subset hc) e he hes hnotin

/-- Witness for C8 (amended) at two concrete turns: the resulting chat
history pairs the turns oldest-first and the retrieval depth is 3. -/
theorem document_chat_history_chronological_witness :
    documentChatHistory (routeConversationHistory [exConvOld, exConvNew] "s")
      = (((routeConversationHistory [exConvOld, exConvNew] "s").take 5).reverse).map
          (fun c => (c.question, c.answer)) ∧
    List.Sorted (fun a b => a.timestamp ≤ b.timestamp)
      (((routeConversationHistory [exConvOld, exConvNew] "s").take 5).reverse) ∧
    documentRetrievalK = 3 := by
  have h := document_chat_history_chronological [exConvOld, exConvNew] "s"
  exact ⟨h.1, h.2.2.2.1, h.2.2.2.2.2⟩

/-- Helper for C10: every entry of the search result list names a Document
row that exists in the table passed to the search. -/
theorem searchResultsRaw_document_mem (vector_stores : List (Int × VectorStore))
    (docs : List Document) (hits : Int → List (String × Rat)) :
    ∀ r ∈ searchResultsRaw vector_stores docs hits,
      ∃ d ∈ docs, d.id = r.document_id := by
  intro r hr
  rcases List.mem_flatten.mp hr with ⟨l, hl, hrl⟩
  rcases List.mem_map.mp hl with ⟨p, hp, rfl⟩
  rcases hfd : docs.find? (fun d => d.id == p.1) with _ | document
  · rw [hfd] at hrl
    simp at hrl
  · rw [hfd] at hrl
    simp only [List.mem_map] at hrl
    rcases hrl with ⟨h, hh, rfl⟩
    exact ⟨document, List.mem_of_find?_eq_some hfd,
      by simpa using List.find?_some hfd⟩

/-- C10: deleting a document leaves the in-memory service state (the
vector-store map and the document-text map) unchanged; afterwards a
search returns no hit for the deleted id — only because its Document row
is gone — while the cross-document retrieval pool still contains the
deleted document's hits, drawn from its surviving index. -/
theorem delete_document_preserves_service (document_id : Int) (st : AppState)
    (fs : List String) (svc : ServiceState)
    (hits : Int → List (String × Rat)) (crossHits : Int → List String)
    (hmem : dictContains svc.vector_stores (some document_id) = true) :
    (delete_document document_id st fs svc).2.2.2 = svc ∧
    (∀ r ∈ search_documents svc.vector_stores
        (delete_document document_id st fs svc).2.1.documents hits,
      r.document_id ≠ document_id) ∧
    (∀ h ∈ crossHits document_id,
      h ∈ crossAllDocs svc.vector_stores crossHits) := by
  have hafter : ∀ d ∈ (delete_document document_id st fs svc).2.1.documents,
      d.id ≠ document_id := by
    rcases hfd : st.documents.find? (fun d => d.id == document_id) with _ | d0
    · intro d hd
      simp only [delete_document, hfd] at hd
      have := List.find?_eq_none.mp hfd d hd
      simpa using this
    · intro d hd
      simp only [delete_document, hfd] at hd
      rcases List.mem_filter.mp hd with ⟨_, hpred⟩
      simpa using hpred
  refine ⟨?_, ?_, ?_⟩
  · rcases hfd : st.documents.find? (fun d => d.id == document_id) with _ | d0 <;>
      simp [delete_document, hfd]
  · intro r hr hreq
    have hrraw : r ∈ searchResultsRaw svc.vector_stores
        (delete_document document_id st fs svc).2.1.documents hits := by
      have h1 : r ∈ List.insertionSort
          (fun a b => a.similarity_score ≤ b.similarity_score)
          (searchResultsRaw svc.vector_stores
            (delete_document document_id st fs svc).2.1.documents hits) :=
        (List.take_sublist _ _).subset hr
      exact (List.perm_insertionSort _ _).mem_iff.mp h1
    rcases searchResultsRaw_document_mem svc.vector_stores
        (delete_document document_id st fs svc).2.1.documents hits r hrraw with
      ⟨d, hd, hdid⟩
    exact hafter d hd (hdid.trans hreq)
  · intro h hh
    have hv : ∃ v, (document_id, v) ∈ svc.vector_stores := by
      simpa [dictContains] using hmem
    rcases hv with ⟨v, hv⟩
    refine List.mem_flatten.mpr ⟨crossHits document_id, ?_, hh⟩
    have := List.mem_map_of_mem (fun p => crossHits p.1) hv
    simpa using this

/-- Witness for C10: after deleting fixture document 1 the service maps
are untouched, a search with its index still present yields no hit for id
1, and its chunk hits remain in the cross-document pool. -/
theorem delete_document_preserves_service_witness :
    (delete_document 1 ⟨[exDoc1], [exConvOld]⟩ ["/uploads/u1_a.txt"]
        ⟨[(1, ⟨["alpha"]⟩)], [(1, "alpha")]⟩).2.2.2
      = ⟨[(1, ⟨["alpha"]⟩)], [(1, "alpha")]⟩ ∧
    (∀ r ∈ search_documents [(1, ⟨["alpha"]⟩)]
        (delete_document 1 ⟨[exDoc1], [exConvOld]⟩ ["/uploads/u1_a.txt"]
          ⟨[(1, ⟨["alpha"]⟩)], [(1, "alpha")]⟩).2.1.documents
        (fun _ => [("alpha", 0)]),
      r.document_id ≠ 1) ∧
    "hit" ∈ crossAllDocs [(1, ⟨["alpha"]⟩)] (fun _ => ["hit"]) := by
  have h := delete_document_preserves_service 1 ⟨[exDoc1], [exConvOld]⟩
    ["/uploads/u1_a.txt"] ⟨[(1, ⟨["alpha"]⟩)], [(1, "alpha")]⟩
    (fun _ => [("alpha", 0)]) (fun _ => ["hit"]) (by decide)
  exact ⟨h.1, h.2.1, h.2.2 "hit" (by decide)⟩

end RA
